import Mathlib

/-
Verification of the sqlite wrapper in platform/qt/src/sqlite3.cpp: a thin
Qt based access layer with Database, Statement and Transaction types.
The wrapper is embedded shallowly: each C++ member function becomes a Lean
function on an explicit state record, and the behaviour of the external Qt
SQL backend (whether an open call or an executed statement succeeds, and
which QSqlError it reports) is passed in as a function parameter.  Thrown
C++ exceptions are modelled as an Option or Except error component of the
result; when the source mutates state before throwing, the function
returns the mutated state together with the error.
-/

set_option autoImplicit false

namespace MapboxSqlite

/-- Error information reported by the Qt SQL layer: the error type code
(0 meaning NoError) and the human readable message, mirroring the two
fields of QSqlError that sqlite3.cpp reads (lastError.type() and
lastError.text()). -/
structure QSqlError where
  type : Nat
  text : String
deriving DecidableEq, Repr

/-- Value of QSqlError with no error set. -/
def QSqlError.noError : QSqlError := { type := 0, text := "" }

/-- Errors thrown by the wrapper: the exception constructor carries the
backend error code and message (mapbox sqlite Exception, built from
lastError.type() and lastError.text()); rangeError models the
std range_error thrown by the oversized text and blob binds. -/
inductive SqlError where
  | exception (code : Nat) (message : String)
  | rangeError (message : String)
deriving DecidableEq, Repr

/-- Tagged dynamic value mirroring the QVariant values that sqlite3.cpp
stores and reads back: invalid (default constructed, as returned by
boundValue for a slot never bound), null (bound from nullptr), integers,
booleans and text. -/
inductive QVariant where
  | invalid
  | null
  | vInt (v : Int)
  | vBool (b : Bool)
  | vString (s : String)
deriving DecidableEq, Repr

/-- QVariant isNull: true for the invalid variant and for a variant
holding a null value. -/
def QVariant.isNull : QVariant → Bool
  | .invalid => true
  | .null => true
  | _ => false

/-- Conversion of a QVariant to a 64 bit integer, following QVariant
value semantics: invalid and null convert to 0, booleans to 0 or 1,
text by decimal parsing with 0 on failure. -/
def qvariantToInt : QVariant → Int
  | .invalid => 0
  | .null => 0
  | .vInt v => v
  | .vBool b => if b then 1 else 0
  | .vString s => (s.toInt?).getD 0

/-- Conversion of a QVariant to a string, following QVariant toString:
invalid and null convert to the empty string. -/
def qvariantToString : QVariant → String
  | .invalid => ""
  | .null => ""
  | .vInt v => toString v
  | .vBool b => if b then "true" else "false"
  | .vString s => s

/-- State of a QSqlQuery as used by StatementImpl: the query text, the
positional bound values, the last reported error, and the result side
(rows and cursor position) that a finished implementation of run would
consume. -/
structure QSqlQueryState where
  sql : String
  bindings : List (Int × QVariant)
  lastError : QSqlError
  rows : List (List QVariant)
  pos : Nat
deriving DecidableEq, Repr

/-- Freshly constructed query on the given sql text, with no bound
values, no error and no result. -/
def mkQuery (sql : String) : QSqlQueryState :=
  { sql := sql, bindings := [], lastError := QSqlError.noError, rows := [], pos := 0 }

/-- QSqlQuery bindValue at a position: replaces an existing binding at
the position or appends a new one. -/
def setBinding : List (Int × QVariant) → Int → QVariant → List (Int × QVariant)
  | [], i, v => [(i, v)]
  | (j, w) :: rest, i, v =>
      if i = j then (i, v) :: rest else (j, w) :: setBinding rest i v

/-- QSqlQuery boundValue at a position: the stored variant, or the
invalid variant when the position was never bound. -/
def boundValue : List (Int × QVariant) → Int → QVariant
  | [], _ => QVariant.invalid
  | (j, w) :: rest, i => if i = j then w else boundValue rest i

/-- QSqlQuery clear: releases the result and the bound values, leaving
the query as if freshly constructed with no query text. -/
def QSqlQueryState.clear (_ : QSqlQueryState) : QSqlQueryState := mkQuery ""

/-- StatementImpl checkError: a thrown exception carrying the code and
text of lastError when its type is not NoError, and nothing otherwise. -/
def checkErrorRes (q : QSqlQueryState) : Option SqlError :=
  if q.lastError.type = 0 then none
  else some (SqlError.exception q.lastError.type q.lastError.text)

/-- Statement bind, generic template: bindValue on the query followed by
checkError.  The updated binding persists even when checkError reports
an error, matching the mutation order of the source. -/
def Statement.bindGeneric (q : QSqlQueryState) (offset : Int) (v : QVariant) :
    QSqlQueryState × Option SqlError :=
  let q2 : QSqlQueryState := { q with bindings := setBinding q.bindings offset v }
  (q2, checkErrorRes q2)

/-- Statement bind instantiated at the integer types. -/
def Statement.bindInt (q : QSqlQueryState) (offset : Int) (v : Int) :
    QSqlQueryState × Option SqlError :=
  Statement.bindGeneric q offset (QVariant.vInt v)

/-- Statement bind instantiated at nullptr. -/
def Statement.bindNull (q : QSqlQueryState) (offset : Int) :
    QSqlQueryState × Option SqlError :=
  Statement.bindGeneric q offset QVariant.null

/-- Statement bind specialisation for an optional string: binds the
contained string when present and nullptr when absent. -/
def Statement.bindOptString (q : QSqlQueryState) (offset : Int) (v : Option String) :
    QSqlQueryState × Option SqlError :=
  match v with
  | some s => Statement.bindGeneric q offset (QVariant.vString s)
  | none => Statement.bindNull q offset

/-- Largest 32 bit signed value, the std numeric limits int maximum the
source compares lengths against. -/
def intMax : Nat := 2147483647

/-- Error thrown by the oversized text and blob binds. -/
def valueTooLargeError : SqlError :=
  SqlError.rangeError "value too long for sqlite3_bind_text"

/-- Statement bind for text with an explicit length: rejects lengths
above intMax with a range error.  The remaining body of the source is an
unimplemented placeholder that binds nothing, so on the success path the
query state is returned unchanged. -/
def Statement.bindText (q : QSqlQueryState) (offset : Int) (value : String)
    (length : Nat) (retain : Bool) : QSqlQueryState × Option SqlError :=
  if intMax < length then (q, some valueTooLargeError) else (q, none)

/-- Statement bind for a std string value: delegates to the text bind
with the byte length of the string. -/
def Statement.bindString (q : QSqlQueryState) (offset : Int) (value : String)
    (retain : Bool) : QSqlQueryState × Option SqlError :=
  Statement.bindText q offset value value.utf8ByteSize retain

/-- Statement bindBlob: rejects lengths above intMax with a range error;
like the text bind, the remaining body of the source is an unimplemented
placeholder that binds nothing. -/
def Statement.bindBlob (q : QSqlQueryState) (offset : Int) (value : List Nat)
    (length : Nat) (retain : Bool) : QSqlQueryState × Option SqlError :=
  if intMax < length then (q, some valueTooLargeError) else (q, none)

/-- Statement run: the body of the source is an unimplemented
placeholder that returns false unconditionally, regardless of the result
rows and of the cursor position. -/
def Statement.run (q : QSqlQueryState) : Bool × QSqlQueryState := (false, q)

/-- Statement get instantiated at the integer types: reads boundValue at
the offset, runs checkError, and converts the variant. -/
def Statement.getInt (q : QSqlQueryState) (offset : Int) : Except SqlError Int :=
  match checkErrorRes q with
  | some e => Except.error e
  | none => Except.ok (qvariantToInt (boundValue q.bindings offset))

/-- Statement get specialisation for std string: reads boundValue at the
offset, runs checkError, and converts with toString. -/
def Statement.getString (q : QSqlQueryState) (offset : Int) : Except SqlError String :=
  match checkErrorRes q with
  | some e => Except.error e
  | none => Except.ok (qvariantToString (boundValue q.bindings offset))

/-- Statement get specialisation for an optional 64 bit integer: a null
or invalid bound variant reads back as absent, any other variant as the
present converted value. -/
def Statement.getOptInt (q : QSqlQueryState) (offset : Int) :
    Except SqlError (Option Int) :=
  match checkErrorRes q with
  | some e => Except.error e
  | none =>
    let v := boundValue q.bindings offset
    if v.isNull then Except.ok none else Except.ok (some (qvariantToInt v))

/-- Statement get specialisation for an optional string. -/
def Statement.getOptString (q : QSqlQueryState) (offset : Int) :
    Except SqlError (Option String) :=
  match checkErrorRes q with
  | some e => Except.error e
  | none =>
    let v := boundValue q.bindings offset
    if v.isNull then Except.ok none else Except.ok (some (qvariantToString v))

/-- Statement reset: the source calls clear on the query. -/
def Statement.reset (q : QSqlQueryState) : QSqlQueryState := q.clear

/-- Statement clearBindings: the source also calls clear on the query. -/
def Statement.clearBindings (q : QSqlQueryState) : QSqlQueryState := q.clear

/-- Open flags tested by the database constructor.  The header declaring
the flag bit masks is not part of the given sources, so the flag set is
modelled as the two booleans the constructor inspects. -/
structure OpenFlags where
  readOnly : Bool
  sharedCache : Bool
deriving DecidableEq, Repr

/-- State of a QSqlDatabase as used by DatabaseImpl: the connect options
string, the database name, and whether the connection is open. -/
structure QSqlDatabaseState where
  connectOptions : String
  databaseName : String
  isOpen : Bool
deriving DecidableEq, Repr

/-- Connect options string built by the database constructor from the
open flags, joining the named options with a semicolon. -/
def connectOptionsFor (flags : OpenFlags) : String :=
  let s := if flags.readOnly then "QSQLITE_OPEN_READONLY" else ""
  if flags.sharedCache then
    if s.isEmpty then "QSQLITE_ENABLE_SHARED_CACHE"
    else s ++ ";QSQLITE_ENABLE_SHARED_CACHE"
  else s

/-- DatabaseImpl constructor: sets the connect options and the database
name, then opens.  The backend outcome of the open call is the openOk
parameter and the QSqlError it reports on failure is openErr; a failed
open throws an exception built from that error and constructs no
database state. -/
def DatabaseImpl.construct (openOk : String → String → Bool) (openErr : QSqlError)
    (filename : String) (flags : OpenFlags) : Except SqlError QSqlDatabaseState :=
  if openOk (connectOptionsFor flags) filename then
    Except.ok { connectOptions := connectOptionsFor flags,
                databaseName := filename, isOpen := true }
  else
    Except.error (SqlError.exception openErr.type openErr.text)

/-- Connect options string after setBusyTimeout appends the busy timeout
option for the given timeout in milliseconds. -/
def busyTimeoutOptions (co : String) (timeoutMs : Int) : String :=
  if co.isEmpty then "QSQLITE_BUSY_TIMEOUT=" ++ toString timeoutMs
  else co ++ ";QSQLITE_BUSY_TIMEOUT=" ++ toString timeoutMs

/-- Database setBusyTimeout: appends the busy timeout option to the
current connect options, closes the connection when it is open, sets the
new options and reopens.  When the reopen fails it throws, and the
connection is left closed with the new options already set. -/
def Database.setBusyTimeout (openOk : String → String → Bool) (openErr : QSqlError)
    (st : QSqlDatabaseState) (timeoutMs : Int) :
    QSqlDatabaseState × Option SqlError :=
  if openOk (busyTimeoutOptions st.connectOptions timeoutMs) st.databaseName then
    ({ st with isOpen := true,
               connectOptions := busyTimeoutOptions st.connectOptions timeoutMs }, none)
  else
    ({ st with isOpen := false,
               connectOptions := busyTimeoutOptions st.connectOptions timeoutMs },
      some (SqlError.exception openErr.type openErr.text))

/-- State of a Transaction object: the needRollback flag, initialised to
true on construction (the member initialiser lives in the header; the
spec records the flag as starting true) and cleared only by commit and
rollback. -/
structure TransactionState where
  needRollback : Bool
deriving DecidableEq, Repr

/-- Transaction modes of the constructor. -/
inductive TransactionMode where
  | deferredMode
  | immediateMode
  | exclusiveMode
deriving DecidableEq, Repr

/-- BEGIN statement issued by the transaction constructor for each mode. -/
def beginStatementFor : TransactionMode → String
  | .deferredMode => "BEGIN DEFERRED TRANSACTION"
  | .immediateMode => "BEGIN IMMEDIATE TRANSACTION"
  | .exclusiveMode => "BEGIN EXCLUSIVE TRANSACTION"

/-- Transaction constructor: issues the BEGIN statement of the chosen
mode and starts with the needRollback flag set. -/
def Transaction.construct (mode : TransactionMode) : TransactionState × List String :=
  ({ needRollback := true }, [beginStatementFor mode])

/-- Transaction commit: clears needRollback first, then executes the
COMMIT statement on the database; the backend answer to an executed
statement is the backend parameter, and an error from it propagates
while the flag stays cleared.  The result is the new state, the list of
statements issued, and the propagated error if any. -/
def Transaction.commit (backend : String → Option SqlError) (_ : TransactionState) :
    TransactionState × List String × Option SqlError :=
  ({ needRollback := false }, ["COMMIT TRANSACTION"], backend "COMMIT TRANSACTION")

/-- Transaction rollback: clears needRollback first, then executes the
ROLLBACK statement; an error from the backend propagates while the flag
stays cleared. -/
def Transaction.rollbackOp (backend : String → Option SqlError) (_ : TransactionState) :
    TransactionState × List String × Option SqlError :=
  ({ needRollback := false }, ["ROLLBACK TRANSACTION"], backend "ROLLBACK TRANSACTION")

/-- Transaction destructor: when needRollback is still set it runs
rollback inside a catch all handler that discards any error.  The result
is the list of statements issued and the error escaping the destructor,
which is none on every path. -/
def Transaction.destruct (backend : String → Option SqlError) (t : TransactionState) :
    List String × Option SqlError :=
  if t.needRollback then
    let r := Transaction.rollbackOp backend t
    (r.2.1, none)
  else ([], none)

/-- Statement state with one available result row, exercising run. -/
def c1State : QSqlQueryState :=
  { mkQuery "SELECT id, name FROM t ORDER BY id" with
      rows := [[QVariant.vInt 1, QVariant.vString "a"]] }

/-- Statement state for the text round trip. -/
def c2Stmt : QSqlQueryState := mkQuery "INSERT INTO t VALUES(?)"

/-- Open connection with empty connect options, exercising
setBusyTimeout. -/
def c3State : QSqlDatabaseState :=
  { connectOptions := "", databaseName := "cache.db", isOpen := true }

/-- Statement state with the integer 7 bound at slot 0. -/
def c4Stmt : QSqlQueryState :=
  (Statement.bindInt (mkQuery "INSERT INTO t VALUES(?)") 0 7).1

/-- Statement state with the integer 7 bound at slot 0 and a current
result row whose column 0 holds 99 instead. -/
def c10Stmt : QSqlQueryState :=
  { (Statement.bindInt (mkQuery "SELECT v FROM t") 0 7).1 with
      rows := [[QVariant.vInt 99]], pos := 0 }

end MapboxSqlite

namespace MapboxSqlite

/-- C1: run does not advance execution row by row; its body is an
unimplemented placeholder, so on a statement whose result holds an
available row, run still returns false and leaves the state untouched,
contradicting the contract that it returns true while a row is
available. -/
theorem c1_run_false_with_row_available :
    0 < c1State.rows.length ∧ Statement.run c1State = (false, c1State) :=
  ⟨by decide, rfl⟩

/-- C2: the bind then get round trip fails for text, because the text
bind overload is an unimplemented placeholder: binding the string a at
slot 0 reports success but stores nothing, and reading the slot back as
a string returns the empty string instead of a. -/
theorem c2_text_roundtrip_fails :
    (Statement.bindString c2Stmt 0 "a" true).2 = none ∧
    Statement.getString (Statement.bindString c2Stmt 0 "a" true).1 0 = Except.ok "" ∧
    ("" : String) ≠ "a" :=
  ⟨rfl, rfl, by decide⟩

/-- C3 counterexample: setBusyTimeout is not atomic from the point of
view of the caller.  On an open connection, when the reopen inside the
call fails, the call reports an error and leaves the connection closed,
hence unusable. -/
theorem c3_counterexample :
    (Database.setBusyTimeout (fun _ _ => false) { type := 1, text := "unable to open" }
        c3State 1000).2.isSome = true ∧
    (Database.setBusyTimeout (fun _ _ => false) { type := 1, text := "unable to open" }
        c3State 1000).1.isOpen = false :=
  ⟨rfl, rfl⟩

/-- C3 amended: setBusyTimeout appends the timeout option and reopens;
the connection ends open exactly when the call reports no error, and on
failure it is left closed with the new options already set, so a failed
call leaves the connection unusable rather than usable under the old
timeout. -/
theorem c3_amended_not_atomic (openOk : String → String → Bool) (openErr : QSqlError)
    (st : QSqlDatabaseState) (timeoutMs : Int) :
    (Database.setBusyTimeout openOk openErr st timeoutMs).1.isOpen =
      (Database.setBusyTimeout openOk openErr st timeoutMs).2.isNone ∧
    (Database.setBusyTimeout openOk openErr st timeoutMs).1.connectOptions =
      busyTimeoutOptions st.connectOptions timeoutMs := by
  cases hc : openOk (busyTimeoutOptions st.connectOptions timeoutMs) st.databaseName <;>
    simp [Database.setBusyTimeout, hc]

/-- C4 counterexample: reset does not preserve the bound parameter
slots.  A parameter bound before reset reads back as unbound afterwards,
because reset clears the whole query. -/
theorem c4_counterexample :
    boundValue c4Stmt.bindings 0 = QVariant.vInt 7 ∧
    boundValue (Statement.reset c4Stmt).bindings 0 = QVariant.invalid :=
  ⟨rfl, rfl⟩

/-- C4 amended: reset discards the row cursor and also discards every
bound parameter value; after reset the statement has no result, its
cursor is at the start, and every parameter slot is unbound, so
parameters must be rebound before re-execution. -/
theorem c4_amended_reset_clears_bindings (q : QSqlQueryState) (i : Int) :
    (Statement.reset q).pos = 0 ∧ (Statement.reset q).rows = [] ∧
    boundValue (Statement.reset q).bindings i = QVariant.invalid :=
  ⟨rfl, rfl, rfl⟩

/-- C5: destroying a transaction whose needRollback flag is still set
issues the ROLLBACK statement and lets no error escape the destructor,
whatever error the backend raises for the rollback. -/
theorem c5_destructor_swallows_rollback_error (backend : String → Option SqlError)
    (t : TransactionState) (h : t.needRollback = true) :
    Transaction.destruct backend t = (["ROLLBACK TRANSACTION"], none) := by
  unfold Transaction.destruct
  rw [h]
  rfl

/-- Witness for C5 at a backend whose rollback fails: the error is
swallowed and the ROLLBACK was issued. -/
theorem c5_witness :
    Transaction.destruct (fun _ => some (SqlError.exception 1 "cannot rollback"))
      { needRollback := true } = (["ROLLBACK TRANSACTION"], none) :=
  c5_destructor_swallows_rollback_error _ _ rfl

/-- C6: binding text or a blob whose length exceeds the largest 32 bit
signed value fails with the range error and returns the statement state
unchanged, so every other bound parameter is left unaffected by the
failed bind. -/
theorem c6_too_long_bind_fails (q : QSqlQueryState) (offset : Int) (value : String)
    (blob : List Nat) (length : Nat) (retain : Bool) (h : intMax < length) :
    Statement.bindText q offset value length retain = (q, some valueTooLargeError) ∧
    Statement.bindBlob q offset blob length retain = (q, some valueTooLargeError) := by
  unfold Statement.bindText Statement.bindBlob
  rw [if_pos h]
  exact ⟨rfl, rfl⟩

/-- Witness for C6: a text bind of length two to the power 31 on a
statement that already has the integer 7 bound at slot 0 fails with the
range error and leaves that binding in place. -/
theorem c6_witness :
    intMax < 2147483648 ∧
    Statement.bindText (Statement.bindInt (mkQuery "q") 0 7).1 1 "x" 2147483648 true =
      ((Statement.bindInt (mkQuery "q") 0 7).1, some valueTooLargeError) :=
  ⟨by decide,
    (c6_too_long_bind_fails (Statement.bindInt (mkQuery "q") 0 7).1 1 "x" []
      2147483648 true (by decide)).1⟩

/-- C7: when the backend rejects the open call, the database constructor
throws an exception carrying exactly the code and the message of the
backend reported error, and no database state is constructed. -/
theorem c7_open_failure_constructs_nothing (openOk : String → String → Bool)
    (openErr : QSqlError) (filename : String) (flags : OpenFlags)
    (h : openOk (connectOptionsFor flags) filename = false) :
    DatabaseImpl.construct openOk openErr filename flags =
      Except.error (SqlError.exception openErr.type openErr.text) := by
  unfold DatabaseImpl.construct
  rw [h]
  rfl

/-- Witness for C7 at a backend that rejects every open. -/
theorem c7_witness :
    DatabaseImpl.construct (fun _ _ => false)
      { type := 14, text := "unable to open database file" } "bad.db"
      { readOnly := true, sharedCache := false } =
      Except.error (SqlError.exception 14 "unable to open database file") :=
  c7_open_failure_constructs_nothing _ _ _ _ rfl

/-- C8: reset and clearBindings both clear the whole query, so the two
calls are the identical operation on every statement state. -/
theorem c8_reset_eq_clearBindings (q : QSqlQueryState) :
    Statement.reset q = Statement.clearBindings q := rfl

/-- C9: commit clears the needRollback flag before executing the COMMIT
statement, so even when the backend rejects that COMMIT the destructor
running afterwards issues no ROLLBACK and raises nothing. -/
theorem c9_failed_commit_no_rollback (backend : String → Option SqlError)
    (t : TransactionState) (h : (backend "COMMIT TRANSACTION").isSome = true) :
    (Transaction.commit backend t).1.needRollback = false ∧
    Transaction.destruct backend (Transaction.commit backend t).1 = ([], none) :=
  ⟨rfl, rfl⟩

/-- Witness for C9 at a backend that rejects the COMMIT statement. -/
theorem c9_witness :
    (Transaction.commit (fun _ => some (SqlError.exception 5 "database is locked"))
        { needRollback := true }).1.needRollback = false ∧
    Transaction.destruct (fun _ => some (SqlError.exception 5 "database is locked"))
      (Transaction.commit (fun _ => some (SqlError.exception 5 "database is locked"))
        { needRollback := true }).1 = ([], none) :=
  c9_failed_commit_no_rollback _ _ rfl

/-- C10: get reads the bound parameter store and not the result row:
whatever result rows and cursor position the statement carries, getInt
and getString return the conversion of the value bound at the slot. -/
theorem c10_get_reads_bound_store (q : QSqlQueryState) (i : Int)
    (rows : List (List QVariant)) (pos : Nat)
    (h : q.lastError = QSqlError.noError) :
    Statement.getInt { q with rows := rows, pos := pos } i =
      Except.ok (qvariantToInt (boundValue q.bindings i)) ∧
    Statement.getString { q with rows := rows, pos := pos } i =
      Except.ok (qvariantToString (boundValue q.bindings i)) := by
  simp [Statement.getInt, Statement.getString, checkErrorRes, h, QSqlError.noError]

/-- Witness for C10: on a statement whose bound slot 0 holds 7 while the
current result row holds 99 at column 0, get returns the bound 7. -/
theorem c10_witness :
    Statement.getInt c10Stmt 0 = Except.ok 7 :=
  (c10_get_reads_bound_store (Statement.bindInt (mkQuery "SELECT v FROM t") 0 7).1 0
    [[QVariant.vInt 99]] 0 rfl).1

end MapboxSqlite
